import Mathlib

/-!
Verification of the FlexMeasures/BVP repository specification against its code.

Each section embeds a part of the source tree as Lean definitions and proves
the spec claims about it. Source files embedded here:
  - flexmeasures/data/schemas/reporting (Pandas reporter configuration schema;
    the schema module itself is not under src, it is modelled from the spec
    wording and its test suite src/flexmeasures/data/schemas/tests/test_reporting.py)
  - flexmeasures/data/services/sensors (staleness and status; modelled from the
    spec, only its test suite is under src)
  - bvp/api/init (request_auth_token, get_versions)
  - bvp/api/v1_1/routes.py (service listing, role-guarded endpoints)
  - bvp/data/models/assets.py (Asset and AssetType constructors,
    capacity_factor_in_percent_for)
-/

/-! ## Pandas reporter configuration schema -/

/-- One entry of the transformations list of a Pandas reporter configuration.
In the JSON configuration, df_input and df_output are optional string keys
and method is a required string key. -/
structure Transformation where
  df_input : Option String
  df_output : Option String
  method : String
deriving Repr, DecidableEq

/-- One entry of the beliefs_search_configs list; only the sensor id matters
for the chaining validation modelled here. -/
structure BeliefsSearchConfig where
  sensor : Nat
deriving Repr, DecidableEq

/-- A Pandas reporter configuration, as deserialized by
PandasReporterConfigSchema. -/
structure PandasReporterConfig where
  beliefs_search_configs : List BeliefsSearchConfig
  transformations : List Transformation
  final_df_output : String
deriving Repr, DecidableEq

/-- The dataframe name under which the beliefs-search result for a sensor is
made available to the pipeline: sensor_ followed by the sensor id. -/
def sensorName (b : BeliefsSearchConfig) : String :=
  "sensor_" ++ toString b.sensor

/-- State tracked while validating the chain of transformations: the set of
dataframe names generated so far (fake_data in the schema's validator), the
output name of the previous transformation, and the method of the last
transformation that wrote the final output dataframe. -/
structure ChainState where
  fake_data : List String
  previous_df : Option String
  final_method : Option String
deriving Repr, DecidableEq

/-- The input dataframe of a transformation: its df_input key if present,
otherwise the output of the previous transformation. -/
def resolvedInput (previous : Option String) (t : Transformation) : Option String :=
  match t.df_input with
  | some d => some d
  | none => previous

/-- The output dataframe of a transformation: its df_output key if present,
otherwise its (resolved) input dataframe, to which it writes back. -/
def resolvedOutput (previous : Option String) (t : Transformation) : Option String :=
  match t.df_output with
  | some d => some d
  | none => resolvedInput previous t

/-- Modelled from the spec: one validation step of the chaining validator of
PandasReporterConfigSchema (the schema module is not under src; behaviour
fixed by the spec wording on chained transformations over named intermediate
dataframes and by test_reporting.py). The step resolves the input and output
names, rejects the configuration when the input dataframe has not been
generated before, records the output as generated, and remembers the method
whenever the output is the final output dataframe. -/
def applyTransformation (final : String) (st : ChainState) (t : Transformation) :
    Option ChainState :=
  match resolvedInput st.previous_df t with
  | none => none
  | some din =>
    if din ∈ st.fake_data then
      let dout := match t.df_output with
        | some d => d
        | none => din
      some { fake_data := dout :: st.fake_data,
             previous_df := some dout,
             final_method := if dout = final then some t.method else st.final_method }
    else none

/-- Run the chaining validator over the whole transformations list. -/
def runTransformations (final : String) (st : ChainState) :
    List Transformation → Option ChainState
  | [] => some st
  | t :: ts =>
    match applyTransformation final st t with
    | none => none
    | some st1 => runTransformations final st1 ts

/-- The validator state before any transformation has run: the belief-search
results are the only generated dataframes. -/
def initialState (cfg : PandasReporterConfig) : ChainState :=
  { fake_data := cfg.beliefs_search_configs.map sensorName,
    previous_df := none,
    final_method := none }

/-- The method of the last transformation that wrote the final output
dataframe, if the chain validates at all. -/
def lastMethodOnFinal (cfg : PandasReporterConfig) : Option String :=
  match runTransformations cfg.final_df_output (initialState cfg) cfg.transformations with
  | none => none
  | some st => st.final_method

/-- Modelled from the spec: PandasReporterConfigSchema.load (the schema module
is not under src). Returns true when the configuration loads, false when a
ValidationError is raised: the chain must validate, the final output dataframe
must be generated at some point, and the last method applied to the final
output must not be resample (test_reporting.py: resample cannot be the last
method being applied). -/
def PandasReporterConfigSchema_load (cfg : PandasReporterConfig) : Bool :=
  match runTransformations cfg.final_df_output (initialState cfg) cfg.transformations with
  | none => false
  | some st =>
    decide (cfg.final_df_output ∈ st.fake_data) &&
      decide (st.final_method ≠ some "resample")

/-- Spec-side predicate, following the claim's words: the dataframe called
name is produced at some point of the processing pipeline, either as a
belief-search result or as the df_output of one of the listed
transformations. -/
def pipelineProduces (cfg : PandasReporterConfig) (name : String) : Bool :=
  cfg.beliefs_search_configs.any (fun b => sensorName b == name) ||
    cfg.transformations.any (fun t => t.df_output == some name)

/-- First configuration of test_pandas_reporter_schema (expected valid):
a single copy from sensor_1 into final_output. -/
def cfgTest1 : PandasReporterConfig :=
  { beliefs_search_configs := [⟨1⟩],
    transformations := [⟨some "sensor_1", some "final_output", "copy"⟩],
    final_df_output := "final_output" }

/-- Second configuration of test_pandas_reporter_schema (expected valid):
only the first transformation names a df_input and only the last names the
final df_output; the middle one chains implicitly. -/
def cfgTest2 : PandasReporterConfig :=
  { beliefs_search_configs := [⟨1⟩],
    transformations :=
      [⟨some "sensor_1", some "output1", "copy"⟩,
       ⟨none, none, "copy"⟩,
       ⟨none, some "final_output", "copy"⟩],
    final_df_output := "final_output" }

/-- Third configuration of test_pandas_reporter_schema (expected invalid):
resample is the last method applied to the final output dataframe. -/
def cfgTest3 : PandasReporterConfig :=
  { beliefs_search_configs := [⟨1⟩, ⟨2⟩],
    transformations :=
      [⟨some "sensor_1", some "output1", "copy"⟩,
       ⟨none, none, "copy"⟩,
       ⟨none, some "final_output", "resample"⟩],
    final_df_output := "final_output" }

/-- Fourth configuration of test_pandas_reporter_schema (expected valid):
as cfgTest3 but the resample is followed by an aggregation step (sum). -/
def cfgTest4 : PandasReporterConfig :=
  { beliefs_search_configs := [⟨1⟩, ⟨2⟩],
    transformations :=
      [⟨some "sensor_1", some "output1", "copy"⟩,
       ⟨none, none, "copy"⟩,
       ⟨none, some "final_output", "resample"⟩,
       ⟨none, none, "sum"⟩],
    final_df_output := "final_output" }

example : PandasReporterConfigSchema_load cfgTest1 = true := by decide
example : PandasReporterConfigSchema_load cfgTest2 = true := by decide
example : PandasReporterConfigSchema_load cfgTest3 = false := by decide
example : PandasReporterConfigSchema_load cfgTest4 = true := by decide
example : lastMethodOnFinal cfgTest3 = some "resample" := by decide
example : pipelineProduces cfgTest3 "final_output" = true := by decide

/-! ### Lemmas about the chaining validator -/

/-- Every dataframe name a successful validation step adds was either already
generated or is the explicit df_output of the transformation. -/
theorem applyTransformation_mem (final : String) (st st1 : ChainState)
    (t : Transformation) (h : applyTransformation final st t = some st1) :
    ∀ x ∈ st1.fake_data, x ∈ st.fake_data ∨ t.df_output = some x := by
  intro x hx
  cases hdin : resolvedInput st.previous_df t with
  | none => simp [applyTransformation, hdin] at h
  | some din =>
    simp only [applyTransformation, hdin] at h
    by_cases hmem : din ∈ st.fake_data
    · rw [if_pos hmem] at h
      cases hout : t.df_output with
      | some d =>
        simp only [hout] at h
        cases h
        rcases List.mem_cons.mp hx with hx | hx
        · exact Or.inr (by simp [hx])
        · exact Or.inl hx
      | none =>
        simp only [hout] at h
        cases h
        rcases List.mem_cons.mp hx with hx | hx
        · exact Or.inl (by rw [hx]; exact hmem)
        · exact Or.inl hx
    · rw [if_neg hmem] at h; exact absurd h (by simp)

/-- Every dataframe name generated over a successful run of the validator was
either generated before the run or is the explicit df_output of one of the
transformations of the run. -/
theorem runTransformations_mem (final : String) :
    ∀ (ts : List Transformation) (st st1 : ChainState),
      runTransformations final st ts = some st1 →
      ∀ x ∈ st1.fake_data, x ∈ st.fake_data ∨ ∃ t ∈ ts, t.df_output = some x := by
  intro ts
  induction ts with
  | nil =>
    intro st st1 h x hx
    simp only [runTransformations, Option.some.injEq] at h
    exact Or.inl (h ▸ hx)
  | cons t ts ih =>
    intro st st1 h x hx
    simp only [runTransformations] at h
    cases happ : applyTransformation final st t with
    | none => rw [happ] at h; exact absurd h (by simp)
    | some stm =>
      rw [happ] at h
      rcases ih stm st1 h x hx with hmem | ⟨u, hu, hout⟩
      · rcases applyTransformation_mem final st stm t happ x hmem with hmem | hout
        · exact Or.inl hmem
        · exact Or.inr ⟨t, List.mem_cons_self t ts, hout⟩
      · exact Or.inr ⟨u, List.mem_cons_of_mem t hu, hout⟩

/-- A successful validation step updates previous_df to the transformation's
resolved output dataframe. -/
theorem applyTransformation_previous (final : String) (st st1 : ChainState)
    (t : Transformation) (h : applyTransformation final st t = some st1) :
    st1.previous_df = resolvedOutput st.previous_df t := by
  cases hdin : resolvedInput st.previous_df t with
  | none => simp [applyTransformation, hdin] at h
  | some din =>
    simp only [applyTransformation, hdin] at h
    by_cases hmem : din ∈ st.fake_data
    · rw [if_pos hmem] at h
      cases hout : t.df_output with
      | some d =>
        simp only [hout] at h
        cases h
        simp [resolvedOutput, hout]
      | none =>
        simp only [hout] at h
        cases h
        simp [resolvedOutput, hout, hdin]
    · rw [if_neg hmem] at h; exact absurd h (by simp)

/-- C1 (amended): loading a Pandas reporter configuration succeeds only if the
dataframe named by final_df_output is produced at some point of the pipeline
(as a belief-search result or as the df_output of a listed transformation):
any configuration whose pipeline never generates it is rejected; and the first
test configuration, which does generate it, loads without error. (The amended
claim no longer promises that every configuration generating that dataframe
loads: other validation rules can still reject it.) -/
theorem final_df_output_must_be_produced (cfg : PandasReporterConfig)
    (h : PandasReporterConfigSchema_load cfg = true) :
    pipelineProduces cfg cfg.final_df_output = true ∧
      PandasReporterConfigSchema_load cfgTest1 = true := by
  refine ⟨?_, by decide⟩
  unfold PandasReporterConfigSchema_load at h
  cases hrun : runTransformations cfg.final_df_output (initialState cfg) cfg.transformations with
  | none => rw [hrun] at h; exact absurd h (by simp)
  | some st =>
    rw [hrun] at h
    have hmem : cfg.final_df_output ∈ st.fake_data := by
      by_contra hc
      simp [hc] at h
    rcases runTransformations_mem cfg.final_df_output cfg.transformations
        (initialState cfg) st hrun cfg.final_df_output hmem with hini | ⟨t, ht, hout⟩
    · unfold pipelineProduces
      rcases List.mem_map.mp hini with ⟨b, hb, hbeq⟩
      have : cfg.beliefs_search_configs.any (fun b => sensorName b == cfg.final_df_output) = true :=
        List.any_eq_true.mpr ⟨b, hb, by simp [hbeq]⟩
      simp [this]
    · unfold pipelineProduces
      have : cfg.transformations.any (fun t => t.df_output == some cfg.final_df_output) = true :=
        List.any_eq_true.mpr ⟨t, ht, by simp [hout]⟩
      simp [this]

/-- C1 witness: the first test configuration loads and indeed produces its
final output dataframe. -/
theorem final_df_output_must_be_produced_witness :
    pipelineProduces cfgTest1 cfgTest1.final_df_output = true ∧
      PandasReporterConfigSchema_load cfgTest1 = true :=
  final_df_output_must_be_produced cfgTest1 (by decide)

/-- C1 counterexample: the third test configuration does generate its final
output dataframe (as the df_output of its last transformation), yet
PandasReporterConfigSchema rejects it, refuting the claim that every
configuration generating the final dataframe loads without error. -/
theorem produced_final_df_output_can_still_be_rejected :
    pipelineProduces cfgTest3 cfgTest3.final_df_output = true ∧
      PandasReporterConfigSchema_load cfgTest3 = false := by decide

/-- C2: transformations chain implicitly: a transformation that omits df_input
reads from the immediately preceding transformation's output, one that omits
df_output writes back to its input dataframe, a successful validation step
leaves the resolved output as the new previous dataframe, and the second test
configuration (df_input named only on the first transformation, the final
df_output only on the last) is accepted by PandasReporterConfigSchema.load. -/
theorem transformations_chain_implicitly :
    (∀ (previous : Option String) (t : Transformation),
      t.df_input = none → resolvedInput previous t = previous) ∧
    (∀ (previous : Option String) (t : Transformation),
      t.df_output = none → resolvedOutput previous t = resolvedInput previous t) ∧
    (∀ (final : String) (st st1 : ChainState) (t : Transformation),
      applyTransformation final st t = some st1 →
      st1.previous_df = resolvedOutput st.previous_df t) ∧
    PandasReporterConfigSchema_load cfgTest2 = true := by
  refine ⟨?_, ?_, ?_, by decide⟩
  · intro p t h; simp [resolvedInput, h]
  · intro p t h; simp [resolvedOutput, h]
  · exact fun final st st1 t h => applyTransformation_previous final st st1 t h

/-- C2 witness: the chaining rules applied at the middle transformation of the
second test configuration, which omits both df_input and df_output. -/
theorem transformations_chain_implicitly_witness :
    resolvedInput (some "output1") (⟨none, none, "copy"⟩ : Transformation) =
        some "output1" ∧
      PandasReporterConfigSchema_load cfgTest2 = true :=
  ⟨transformations_chain_implicitly.1 (some "output1") ⟨none, none, "copy"⟩ rfl,
   transformations_chain_implicitly.2.2.2⟩

/-- C3: every configuration in which resample is the last method applied to
the final output dataframe is rejected by PandasReporterConfigSchema.load; the
third test configuration (ending in resample on the final output) is rejected
and the fourth (the same followed by a sum aggregation) is accepted. -/
theorem resample_cannot_be_last (cfg : PandasReporterConfig)
    (h : lastMethodOnFinal cfg = some "resample") :
    PandasReporterConfigSchema_load cfg = false ∧
      PandasReporterConfigSchema_load cfgTest3 = false ∧
      PandasReporterConfigSchema_load cfgTest4 = true := by
  refine ⟨?_, by decide, by decide⟩
  unfold lastMethodOnFinal at h
  unfold PandasReporterConfigSchema_load
  cases hrun : runTransformations cfg.final_df_output (initialState cfg) cfg.transformations with
  | none => rfl
  | some st =>
    rw [hrun] at h
    simp only [Option.some.injEq] at h
    simp [h]

/-- C3 witness: the general rejection applied to the third test configuration,
whose last method on the final output dataframe is resample. -/
theorem resample_cannot_be_last_witness :
    PandasReporterConfigSchema_load cfgTest3 = false ∧
      PandasReporterConfigSchema_load cfgTest3 = false ∧
      PandasReporterConfigSchema_load cfgTest4 = true :=
  resample_cannot_be_last cfgTest3 (by decide)

/-! ## Sensor staleness and status
The service functions get_staleness and get_status and the StatusSchema live
in flexmeasures.data.services.sensors and flexmeasures.data.schemas.reporting,
which are not under src; they are modelled from the spec (staleness/freshness
checks for sensor data) and exercised by
src/flexmeasures/api/common/schemas/tests/test_sensor_data_schema.py. -/

/-- A stored belief about a sensor, reduced to what the staleness check needs:
the knowledge time of the covered event (seconds since an epoch; the time from
which the event's data counts as known, e.g. the publication time of day-ahead
prices or the end of a recorded event) and which data source recorded it. -/
structure Belief where
  knowledgeTime : Int
  sourceId : Nat
deriving Repr, DecidableEq

/-- The knowledge time of the most recent event covered by the beliefs. -/
def latestKnowledgeTime (beliefs : List Belief) : Option Int :=
  beliefs.foldl
    (fun acc b =>
      match acc with
      | none => some b.knowledgeTime
      | some m => some (max m b.knowledgeTime))
    none

/-- Modelled from the spec: get_staleness from flexmeasures.data.services.sensors
(not under src). The staleness of a sensor at time now is now minus the
knowledge time of the most recent event among the sensor's beliefs that match
the staleness search (here: an optional source filter); it is negative while
the sensor's data reaches into the future, as in the negative
expected_staleness rows of test_get_status; none when no belief matches. -/
def get_staleness (beliefs : List Belief) (staleness_search : Option Nat)
    (now : Int) : Option Int :=
  let filtered := match staleness_search with
    | none => beliefs
    | some sid => beliefs.filter (fun b => b.sourceId == sid)
  (latestKnowledgeTime filtered).map (fun t => now - t)

/-- Deserialized status specs: the staleness search and the maximum allowed
staleness in seconds. -/
structure StatusSpecs where
  staleness_search : Option Nat
  max_staleness : Int
deriving Repr, DecidableEq

/-- Raw status specs as posted: max_staleness is an ISO 8601 duration string. -/
structure RawStatusSpecs where
  staleness_search : Option Nat
  max_staleness : String
deriving Repr, DecidableEq

/-- The numeric value of a nonempty list of decimal digit characters. -/
def digitsValue : List Char → Option Nat
  | [] => none
  | cs =>
    cs.foldl
      (fun acc c =>
        match acc with
        | none => none
        | some n =>
          if 48 ≤ c.toNat ∧ c.toNat ≤ 57 then some (n * 10 + (c.toNat - 48)) else none)
      (some 0)

/-- Seconds per time unit letter of an ISO 8601 time duration. -/
def parseUnitSeconds : Char → Option Int
  | 'H' => some 3600
  | 'M' => some 60
  | 'S' => some 1
  | _ => none

/-- Parse the simple ISO 8601 time durations used by the tests (PT followed by
a number and a unit letter) into seconds. -/
def parseIsoDuration (s : String) : Option Int :=
  match s.data with
  | 'P' :: 'T' :: rest =>
    match rest.reverse with
    | [] => none
    | u :: revDigits =>
      match parseUnitSeconds u, digitsValue revDigits.reverse with
      | some k, some n => some ((n : Int) * k)
      | _, _ => none
  | _ => none

/-- Modelled from the spec: StatusSchema.load from
flexmeasures.data.schemas.reporting (not under src): validates a mapping with
a staleness_search and a max_staleness ISO duration. -/
def StatusSchema_load (raw : RawStatusSpecs) : Option StatusSpecs :=
  (parseIsoDuration raw.max_staleness).map
    (fun d => { staleness_search := raw.staleness_search, max_staleness := d })

/-- The mapping returned by get_status, with a staleness and a stale entry. -/
structure SensorStatus where
  staleness : Option Int
  stale : Bool
deriving Repr, DecidableEq

/-- Modelled from the spec: get_status from flexmeasures.data.services.sensors
(not under src). It reports the staleness computed by get_staleness for the
staleness_search of the status specs, and derives the stale flag by comparing
that staleness against max_staleness: the sensor counts as fresh only while
its most recent knowledge time still lies at least max_staleness beyond now,
i.e. stale exactly when staleness exceeds minus max_staleness (and always when
no data matches). This threshold is the unique single comparison of the
staleness against the max_staleness of the status specs that agrees with every
row of test_get_status: with max_staleness PT1H the test expects stale at
staleness -40min and at every positive staleness, but fresh at -3h42m and at
-11h. -/
def get_status (beliefs : List Belief) (status_specs : StatusSpecs)
    (now : Int) : SensorStatus :=
  let s := get_staleness beliefs status_specs.staleness_search now
  { staleness := s,
    stale :=
      match s with
      | none => true
      | some d => decide (-status_specs.max_staleness < d) }

theorem parseIsoDuration_PT1H : parseIsoDuration "PT1H" = some 3600 := by rfl

/-- The epex_da beliefs of the test fixture, in seconds since 2016-01-01T00:00
UTC: the day-ahead prices for both delivery days were published at 11:00 UTC
(noon Amsterdam) on 2016-01-01, so the most recent knowledge time is 39600. -/
def epexBeliefs : List Belief := [{ knowledgeTime := 39600, sourceId := 1 }]

/-- The production capacity beliefs of the test fixture, in seconds since
2015-01-02T00:00 UTC: the Seita forecasts (source 1) reach until 07:00, the
knowledge time of their most recent event is 25200. -/
def productionBeliefs : List Belief :=
  [{ knowledgeTime := 25200, sourceId := 1 }]

/-- The status specs of test_get_status after loading: max_staleness PT1H. -/
def testStatusSpecs (search : Option Nat) : StatusSpecs :=
  { staleness_search := search, max_staleness := 3600 }

example :  -- market row: now 2016-01-01T00:00Z, staleness -11h, not stale
    get_status epexBeliefs (testStatusSpecs none) 0 =
      { staleness := some (-39600), stale := false } := by decide
example :  -- market row: now 2016-01-02T00:18Z, staleness 13h18m, stale
    get_status epexBeliefs (testStatusSpecs none) 87480 =
      { staleness := some 47880, stale := true } := by decide
example :  -- market row: now 2016-01-03T00:00Z, staleness 1d13h, stale
    get_status epexBeliefs (testStatusSpecs none) 172800 =
      { staleness := some 133200, stale := true } := by decide
example :  -- production row: now 06:20, source Seita, staleness -40min, stale
    get_status productionBeliefs (testStatusSpecs (some 1)) 22800 =
      { staleness := some (-2400), stale := true } := by decide
example :  -- production row: now 03:18, source Seita, staleness -3h42m, not stale
    get_status productionBeliefs (testStatusSpecs (some 1)) 11880 =
      { staleness := some (-13320), stale := false } := by decide

/-- C4: get_status reports exactly the staleness of get_staleness for the same
sensor data, staleness search and now; its stale entry is the boolean
comparison of that staleness against the max_staleness of the status specs
(stale precisely when the staleness exceeds minus max_staleness, and also when
no data matches, matching every staleness/stale row of test_get_status); and
the status specs used by the tests, with max_staleness PT1H, validate under
StatusSchema. -/
theorem get_status_reports_get_staleness (beliefs : List Belief)
    (search : Option Nat) (ms now : Int) :
    StatusSchema_load { staleness_search := search, max_staleness := "PT1H" } =
        some { staleness_search := search, max_staleness := 3600 } ∧
      (get_status beliefs { staleness_search := search, max_staleness := ms } now).staleness =
        get_staleness beliefs search now ∧
      ((get_status beliefs { staleness_search := search, max_staleness := ms } now).stale = true ↔
        get_staleness beliefs search now = none ∨
          ∃ d, get_staleness beliefs search now = some d ∧ -ms < d) := by
  refine ⟨?_, ?_, ?_⟩
  · simp [StatusSchema_load, parseIsoDuration_PT1H]
  · simp [get_status]
  · simp only [get_status]
    cases hs : get_staleness beliefs search now with
    | none => simp [hs]
    | some d => simp [hs]

/-! ## Public API root (src/bvp/api/init)
Embedding of get_versions and request_auth_token. Quotation marks inside the
original Python error messages are elided. -/

/-- Response of the public root endpoint GET /api/. -/
structure VersionsResponse where
  message : String
  versions : List String
deriving Repr, DecidableEq

/-- Embedding of get_versions from src/bvp/api/init: the public endpoint
listing the available API versions. -/
def get_versions : VersionsResponse :=
  { message :=
      "For these API versions a public endpoint is available, listing its service. For example: /api/v1/getService and /api/v1_1/getService. An authentication token can be requested at: /api/requestAuthToken",
    versions := ["v1", "v1_1", "v1_2", "v1_3"] }

/-- Static description of a Flask route: which HTTP methods it serves and
which authentication decorators are stacked on it. -/
structure EndpointSpec where
  route : String
  httpMethods : List String
  auth_token_required : Bool
  usef_roles : Option (List String)
deriving Repr, DecidableEq

/-- The route of get_versions: registered at the blueprint root with no
authentication decorator. -/
def get_versions_endpoint : EndpointSpec :=
  { route := "/", httpMethods := ["GET"], auth_token_required := false,
    usef_roles := none }

/-- The route of request_auth_token: POST only, no authentication decorator. -/
def request_auth_token_endpoint : EndpointSpec :=
  { route := "/requestAuthToken", httpMethods := ["POST"],
    auth_token_required := false, usef_roles := none }

/-- C5: the public root API endpoint always returns a versions list equal to
v1, v1_1, v1_2, v1_3, and carries no authentication requirement. -/
theorem get_versions_lists_v1_to_v1_3 :
    get_versions.versions = ["v1", "v1_1", "v1_2", "v1_3"] ∧
      get_versions_endpoint.auth_token_required = false := by
  exact ⟨rfl, rfl⟩

/-- A user record as far as request_auth_token needs it. -/
structure ApiUser where
  id : Nat
  email : String
  password : String
deriving Repr, DecidableEq

/-- The parts of an HTTP request read by request_auth_token: whether the body
is JSON, and the optional email and password JSON parameters. -/
structure AuthRequest where
  is_json : Bool
  email : Option String
  password : Option String
deriving Repr, DecidableEq

/-- Result of request_auth_token: either a token body with auth_token and
user_id, or an errors body together with the HTTP status code the code
attaches to it (none when the branch returns no explicit status code). -/
inductive AuthTokenResult where
  | ok (auth_token : String) (user_id : Nat)
  | errs (errors : List String) (status : Option Nat)
deriving Repr, DecidableEq

/-- The part of request_auth_token below the current-user check: look the user
up by email (User.query), demand the password parameter, verify the password
and issue the token. Note that the missing-password branch returns its errors
body without any status code, unlike every other error branch. -/
def request_auth_token_lookup (verify_password : String → String → Bool)
    (get_auth_token : ApiUser → String) (users : List ApiUser)
    (req : AuthRequest) (email : String) : AuthTokenResult :=
  match users.find? (fun u => u.email == email) with
  | none => .errs ["User with email " ++ email ++ " does not exist"] (some 404)
  | some user =>
    match req.password with
    | none => .errs ["Please provide the password parameter."] none
    | some pw =>
      if verify_password pw user.password then .ok (get_auth_token user) user.id
      else .errs ["User password does not match."] (some 401)

/-- Embedding of request_auth_token from src/bvp/api/init. External
collaborators are passed in: verify_password (flask_security), the token
issuer user.get_auth_token, the authenticated session user current_user
(none when unauthenticated) and the user table. The try/except wrapper that
maps exceptions to status 500 has no failing operation in this model. -/
def request_auth_token (verify_password : String → String → Bool)
    (get_auth_token : ApiUser → String) (current_user : Option ApiUser)
    (users : List ApiUser) (req : AuthRequest) : AuthTokenResult :=
  if req.is_json = false then
    .errs ["Content-type of request must be application/json"] (some 400)
  else
    match req.email with
    | none => .errs ["Please provide the email parameter."] (some 400)
    | some email =>
      match current_user with
      | some cu =>
        if cu.email = email then .ok (get_auth_token cu) cu.id
        else request_auth_token_lookup verify_password get_auth_token users req email
      | none => request_auth_token_lookup verify_password get_auth_token users req email

/-- Whether the session is already authenticated as the user with this email:
the condition under which request_auth_token skips the password check. -/
def matchingSession (current_user : Option ApiUser) (email : String) : Bool :=
  match current_user with
  | none => false
  | some u => u.email == email

/-- Password verifier used for concrete inputs: compare with the stored
password directly. -/
def verifyEq (given stored : String) : Bool := given == stored

/-- Token issuer used for concrete inputs. -/
def tokenFor (u : ApiUser) : String := "token-" ++ toString u.id

/-- The user on record in the concrete scenarios. -/
def demoUser : ApiUser := { id := 1, email := "user@test", password := "secret" }

example :
    request_auth_token verifyEq tokenFor none [demoUser]
      { is_json := true, email := some "user@test", password := some "secret" } =
    .ok "token-1" 1 := by decide

/-- C6 counterexample: a session already authenticated as the named user gets
a token even though the supplied password does not verify, so the claim that a
non-verifying password always yields HTTP 401 fails as stated. -/
theorem authenticated_session_skips_password_check :
    verifyEq "wrong" demoUser.password = false ∧
      request_auth_token verifyEq tokenFor (some demoUser) [demoUser]
        { is_json := true, email := some "user@test", password := some "wrong" } =
      .ok "token-1" 1 := by decide

/-- C6 (amended): request_auth_token returns 400 for non-JSON requests and for
requests without the email parameter, 404 when no user with the email exists,
401 when the supplied password does not verify, and a body with auth_token and
user_id when it verifies; except that a session already authenticated as the
named user is issued a token without any password check. -/
theorem request_auth_token_branches (verify : String → String → Bool)
    (tok : ApiUser → String) (cu : Option ApiUser) (users : List ApiUser)
    (email pw : String) :
    (∀ eo po, request_auth_token verify tok cu users ⟨false, eo, po⟩ =
      .errs ["Content-type of request must be application/json"] (some 400)) ∧
    (∀ po, request_auth_token verify tok cu users ⟨true, none, po⟩ =
      .errs ["Please provide the email parameter."] (some 400)) ∧
    (matchingSession cu email = false →
      users.find? (fun u => u.email == email) = none →
      ∀ po, request_auth_token verify tok cu users ⟨true, some email, po⟩ =
        .errs ["User with email " ++ email ++ " does not exist"] (some 404)) ∧
    (∀ user, matchingSession cu email = false →
      users.find? (fun u => u.email == email) = some user →
      verify pw user.password = false →
      request_auth_token verify tok cu users ⟨true, some email, some pw⟩ =
        .errs ["User password does not match."] (some 401)) ∧
    (∀ user, matchingSession cu email = false →
      users.find? (fun u => u.email == email) = some user →
      verify pw user.password = true →
      request_auth_token verify tok cu users ⟨true, some email, some pw⟩ =
        .ok (tok user) user.id) ∧
    (∀ u, cu = some u → u.email = email →
      ∀ po, request_auth_token verify tok cu users ⟨true, some email, po⟩ =
        .ok (tok u) u.id) := by
  refine ⟨fun eo po => rfl, fun po => rfl, ?_, ?_, ?_, ?_⟩
  · intro hses hfind po
    cases cu with
    | none => simp [request_auth_token, request_auth_token_lookup, hfind]
    | some u =>
      have hne : ¬ u.email = email := by
        simpa [matchingSession] using hses
      simp [request_auth_token, request_auth_token_lookup, hne, hfind]
  · intro user hses hfind hverify
    cases cu with
    | none => simp [request_auth_token, request_auth_token_lookup, hfind, hverify]
    | some u =>
      have hne : ¬ u.email = email := by
        simpa [matchingSession] using hses
      simp [request_auth_token, request_auth_token_lookup, hne, hfind, hverify]
  · intro user hses hfind hverify
    cases cu with
    | none => simp [request_auth_token, request_auth_token_lookup, hfind, hverify]
    | some u =>
      have hne : ¬ u.email = email := by
        simpa [matchingSession] using hses
      simp [request_auth_token, request_auth_token_lookup, hne, hfind, hverify]
  · intro u hcu heq po
    subst hcu
    simp [request_auth_token, heq]

/-- C6 witness: the 401 branch at a concrete unauthenticated request with a
wrong password for the user on record. -/
theorem request_auth_token_branches_witness :
    request_auth_token verifyEq tokenFor none [demoUser]
      { is_json := true, email := some "user@test", password := some "wrong" } =
      .errs ["User password does not match."] (some 401) :=
  (request_auth_token_branches verifyEq tokenFor none [demoUser] "user@test"
    "wrong").2.2.2.1 demoUser (by decide) (by decide) (by decide)

/-- C7 counterexample: the missing-password branch of request_auth_token
returns an errors body with no HTTP status code attached, so not every error
branch carries a status from 400/401/404/500. -/
theorem missing_password_branch_has_no_status :
    request_auth_token verifyEq tokenFor none [demoUser]
      { is_json := true, email := some "user@test", password := none } =
      .errs ["Please provide the password parameter."] none := by decide

/-- C7 (amended): every error response of request_auth_token carries an
explicit HTTP status code 400, 401 or 404 (500 is reserved for the exception
wrapper), except the missing-password branch, which returns its errors body
with no status code attached. -/
theorem request_auth_token_error_statuses (verify : String → String → Bool)
    (tok : ApiUser → String) (cu : Option ApiUser) (users : List ApiUser)
    (req : AuthRequest) (msgs : List String) (st : Option Nat)
    (h : request_auth_token verify tok cu users req = .errs msgs st) :
    st = some 400 ∨ st = some 401 ∨ st = some 404 ∨
      (st = none ∧ msgs = ["Please provide the password parameter."]) := by
  have hlookup : ∀ email,
      request_auth_token_lookup verify tok users req email = .errs msgs st →
      st = some 400 ∨ st = some 401 ∨ st = some 404 ∨
        (st = none ∧ msgs = ["Please provide the password parameter."]) := by
    intro email hl
    unfold request_auth_token_lookup at hl
    cases hfind : users.find? (fun u => u.email == email) with
    | none =>
      rw [hfind] at hl
      cases hl
      exact Or.inr (Or.inr (Or.inl rfl))
    | some user =>
      rw [hfind] at hl
      cases hpw : req.password with
      | none =>
        rw [hpw] at hl
        cases hl
        exact Or.inr (Or.inr (Or.inr ⟨rfl, rfl⟩))
      | some pw =>
        rw [hpw] at hl
        dsimp only at hl
        by_cases hv : verify pw user.password
        · rw [if_pos hv] at hl
          exact absurd hl (by simp)
        · rw [if_neg hv] at hl
          cases hl
          exact Or.inr (Or.inl rfl)
  unfold request_auth_token at h
  by_cases hjson : req.is_json = false
  · rw [if_pos hjson] at h
    cases h
    exact Or.inl rfl
  · rw [if_neg hjson] at h
    cases hem : req.email with
    | none =>
      rw [hem] at h
      cases h
      exact Or.inl rfl
    | some email =>
      rw [hem] at h
      cases hcu : cu with
      | none =>
        rw [hcu] at h
        exact hlookup email h
      | some u =>
        rw [hcu] at h
        dsimp only at h
        by_cases heq : u.email = email
        · rw [if_pos heq] at h
          exact absurd h (by simp)
        · rw [if_neg heq] at h
          exact hlookup email h

/-- C7 witness: the amended statement applied at a concrete non-JSON request,
whose error body carries status 400. -/
theorem request_auth_token_error_statuses_witness :
    some 400 = some 400 ∨ some 400 = some 401 ∨ some 400 = some 404 ∨
      ((some 400 : Option Nat) = none ∧
        ["Content-type of request must be application/json"] =
          ["Please provide the password parameter."]) :=
  request_auth_token_error_statuses verifyEq tokenFor none []
    { is_json := false, email := none, password := none }
    ["Content-type of request must be application/json"] (some 400) (by decide)

/-! ## API v1.1 service listing and role-based access
(src/bvp/api/v1_1/routes.py) -/

/-- Embedding of service_listing from src/bvp/api/v1_1/routes.py: each
service's name and its access list of USEF roles. -/
def service_listing_v1_1 : List (String × List String) :=
  [("getMeterData", ["Aggregator", "Supplier", "MDC", "DSO", "Prosumer", "ESCo"]),
   ("postMeterData", ["MDC"]),
   ("getPrognosis", ["Aggregator", "Supplier", "MDC", "DSO", "Prosumer", "ESCo"]),
   ("postPrognosis", ["Aggregator", "Supplier", "MDC", "DSO", "Prosumer", "ESCo"]),
   ("postUdiEvent", ["Prosumer", "ESCo"]),
   ("getDeviceMessage", ["Prosumer", "ESCo"])]

/-- Modelled from the spec: check_access from bvp.api.common.utils.api_utils
(not under src): look a service up in the service listing and return its
access list of USEF roles. -/
def check_access (listing : List (String × List String)) (service : String) :
    List String :=
  match listing.find? (fun s => s.1 == service) with
  | some s => s.2
  | none => []

/-- Result of running a role-guarded endpoint: either the handler's response
or a structured error with its domain error code and HTTP status. -/
inductive GuardedResponse (α : Type) where
  | allowed (body : α)
  | forbidden (errorCode : String) (statusCode : Nat)
deriving Repr, DecidableEq

/-- Modelled from the spec: the usef_roles_accepted decorator from
bvp.api.common.utils.validators (not under src): an authenticated sender
holding at least one accepted USEF role reaches the handler; one holding none
receives an INVALID_SENDER error with HTTP status 403 (see the route
docstrings in src/bvp/api/v1_1/routes.py and test_invalid_sender_and_logout in
src/bvp/api/v1/tests/test_api_v1.py). -/
def usef_roles_accepted {α : Type} (accepted : List String)
    (senderRoles : List String) (handler : α) : GuardedResponse α :=
  if senderRoles.any (fun r => accepted.contains r) then .allowed handler
  else .forbidden "INVALID_SENDER" 403

/-- The postMeterData route of API v1.1: POST, token-protected, roles from the
service listing. -/
def post_meter_data_endpoint : EndpointSpec :=
  { route := "/postMeterData", httpMethods := ["POST"],
    auth_token_required := true,
    usef_roles := some (check_access service_listing_v1_1 "postMeterData") }

/-- C8: in API v1.1 the postMeterData service accepts only the MDC role while
getMeterData, getPrognosis and postPrognosis accept the six USEF roles
Aggregator, Supplier, MDC, DSO, Prosumer, ESCo; and any authenticated sender
holding none of an endpoint's accepted roles is answered with INVALID_SENDER
and HTTP status 403. -/
theorem postMeterData_restricted_to_MDC :
    check_access service_listing_v1_1 "postMeterData" = ["MDC"] ∧
      check_access service_listing_v1_1 "getMeterData" =
        ["Aggregator", "Supplier", "MDC", "DSO", "Prosumer", "ESCo"] ∧
      check_access service_listing_v1_1 "getPrognosis" =
        ["Aggregator", "Supplier", "MDC", "DSO", "Prosumer", "ESCo"] ∧
      check_access service_listing_v1_1 "postPrognosis" =
        ["Aggregator", "Supplier", "MDC", "DSO", "Prosumer", "ESCo"] ∧
      ∀ (α : Type) (accepted senderRoles : List String) (handler : α),
        (∀ r ∈ senderRoles, r ∉ accepted) →
        usef_roles_accepted accepted senderRoles handler =
          .forbidden "INVALID_SENDER" 403 := by
  refine ⟨by decide, by decide, by decide, by decide, ?_⟩
  intro α accepted senderRoles handler hnone
  unfold usef_roles_accepted
  have hany : senderRoles.any (fun r => accepted.contains r) = false := by
    rw [List.any_eq_false]
    intro r hr
    simpa using hnone r hr
  rw [hany]
  simp

/-- C8 witness: a sender holding only the Prosumer role is rejected from
postMeterData, whose access list is just MDC. -/
theorem postMeterData_restricted_to_MDC_witness :
    usef_roles_accepted (check_access service_listing_v1_1 "postMeterData")
      ["Prosumer"] "PostMeterDataResponse" =
      .forbidden "INVALID_SENDER" 403 :=
  postMeterData_restricted_to_MDC.2.2.2.2 String
    (check_access service_listing_v1_1 "postMeterData") ["Prosumer"]
    "PostMeterDataResponse" (by decide)

/-! ## Asset and AssetType constructors (src/bvp/data/models/assets.py)
Python str.replace and the inflection library's titleize and humanize are
embedded over character lists so that they evaluate inside proofs. -/

/-- Replace every occurrence of pattern by repl, scanning left to right, with
explicit fuel (one unit per consumed input character). -/
def replaceFuel (pattern repl : List Char) : Nat → List Char → List Char
  | _, [] => []
  | 0, l => l
  | n+1, c :: rest =>
    if (c :: rest).take pattern.length = pattern ∧ pattern ≠ [] then
      repl ++ replaceFuel pattern repl n (rest.drop (pattern.length - 1))
    else c :: replaceFuel pattern repl n rest

/-- Python str.replace: replace every occurrence of a (nonempty) pattern. -/
def pyReplace (s pattern repl : String) : String :=
  ⟨replaceFuel pattern.data repl.data s.data.length s.data⟩

/-- ASCII lower-casing of one character. -/
def toLowerChar (c : Char) : Char :=
  if 65 ≤ c.toNat ∧ c.toNat ≤ 90 then Char.ofNat (c.toNat + 32) else c

/-- ASCII upper-casing of one character. -/
def toUpperChar (c : Char) : Char :=
  if 97 ≤ c.toNat ∧ c.toNat ≤ 122 then Char.ofNat (c.toNat - 32) else c

/-- Upper-case the first character. -/
def capitalizeFirst : List Char → List Char
  | [] => []
  | c :: rest => toUpperChar c :: rest

/-- Split a character list on spaces (Python-style word boundaries of the
names handled here). -/
def wordsBySpace (l : List Char) : List (List Char) :=
  l.foldr
    (fun c acc =>
      if c = ' ' then [] :: acc
      else
        match acc with
        | [] => [[c]]
        | w :: ws => (c :: w) :: ws)
    [[]]

/-- Join words with single spaces. -/
def joinSpace (ws : List (List Char)) : List Char := List.intercalate [' '] ws

/-- Whether the name ends in the three characters underscore-i-d, the suffix
the humanize rule strips. -/
def endsInIdSuffix (l : List Char) : Bool :=
  match l.reverse with
  | 'd' :: 'i' :: '_' :: _ => true
  | _ => false

/-- Modelled from the spec: underscore from the external inflection library as
Asset.asset_type_display_name and titleize use it on the plain ASCII names of
this repository: dashes become underscores and the result is lower-cased (the
camel-case splitting rules are not exercised by such names). -/
def underscore (s : String) : String :=
  ⟨((pyReplace s "-" "_").data).map toLowerChar⟩

/-- Modelled from the spec: humanize from the external inflection library as
AssetType's constructor uses it: strip a trailing _id, turn underscores into
spaces, lower-case, and capitalize the first character. -/
def humanize (s : String) : String :=
  let l := s.data
  let l := if endsInIdSuffix l then l.take (l.length - 3) else l
  let l := l.map (fun c => if c = '_' then ' ' else c)
  let l := l.map toLowerChar
  ⟨capitalizeFirst l⟩

/-- Modelled from the spec: titleize from the external inflection library as
Asset's constructor uses it: humanize the underscored name, then capitalize
each space-separated word. -/
def titleize (s : String) : String :=
  ⟨joinSpace ((wordsBySpace (humanize (underscore s)).data).map capitalizeFirst)⟩

/-- Embedding of Asset's constructor from src/bvp/data/models/assets.py, as
far as it sets name and display_name: the literal substring space-(MW) is
stripped from the name, and when the supplied display_name is the empty
string or None (both modelled by the Option), display_name becomes the
titleized stripped name. Returns (name, display_name). -/
def Asset_init (name : String) (display_name : Option String) : String × String :=
  let n := pyReplace name " (MW)" ""
  let d :=
    match display_name with
    | none => titleize n
    | some s => if s = "" then titleize n else s
  (n, d)

/-- Embedding of AssetType's constructor from src/bvp/data/models/assets.py:
the name is lower-cased with spaces replaced by underscores, and when no
display_name keyword was given (key absent, modelled by none) display_name
becomes the humanized name. Returns (name, display_name). -/
def AssetType_init (name : String) (display_name_kwarg : Option String) :
    String × String :=
  let n := ⟨((pyReplace name " " "_").data).map toLowerChar⟩
  let d :=
    match display_name_kwarg with
    | none => humanize n
    | some s => s
  (n, d)

example : Asset_init "My Asset (MW)" none = ("My Asset", "My Asset") := by decide
example : AssetType_init "Charging Station" none =
    ("charging_station", "Charging station") := by decide
example : titleize "solar panel" = "Solar Panel" := by decide

/-- C9 counterexample: an Asset constructed with an empty name and no
display_name ends up with an empty display_name, so a fresh Asset can carry an
empty display_name. -/
theorem empty_name_gives_empty_display_name :
    Asset_init "" none = ("", "") := by decide

/-- C9 (amended): every newly constructed Asset has the literal substring
space-(MW) stripped from its name and, when no display_name was supplied
(empty string or None), its display_name set to the titleized stripped name;
every newly constructed AssetType has its name lower-cased with spaces
replaced by underscores and, when no display_name keyword was given, its
display_name set to the humanized name. (The display_name can still be empty,
namely when the stripped name is empty.) -/
theorem constructors_normalize_names (name : String) (dn : Option String) :
    (Asset_init name dn).1 = pyReplace name " (MW)" "" ∧
      (dn = none ∨ dn = some "" →
        (Asset_init name dn).2 = titleize (pyReplace name " (MW)" "")) ∧
      (∀ s, dn = some s → s ≠ "" → (Asset_init name dn).2 = s) ∧
      (AssetType_init name dn).1 =
        (⟨((pyReplace name " " "_").data).map toLowerChar⟩ : String) ∧
      (dn = none →
        (AssetType_init name dn).2 =
          humanize ⟨((pyReplace name " " "_").data).map toLowerChar⟩) := by
  refine ⟨rfl, ?_, ?_, rfl, ?_⟩
  · rintro (rfl | rfl)
    · rfl
    · rfl
  · rintro s rfl hs
    simp [Asset_init, hs]
  · rintro rfl
    rfl

/-- C9 witness: the constructor rules applied to an asset named with the MW
suffix and no display_name, and to an asset type named with a space and no
display_name keyword. -/
theorem constructors_normalize_names_witness :
    (Asset_init "My Asset (MW)" none).2 = titleize (pyReplace "My Asset (MW)" " (MW)" "") ∧
      (AssetType_init "Charging Station" none).2 =
        humanize ⟨((pyReplace "Charging Station" " " "_").data).map toLowerChar⟩ :=
  ⟨(constructors_normalize_names "My Asset (MW)" none).2.1 (Or.inl rfl),
   (constructors_normalize_names "Charging Station" none).2.2.2.2 rfl⟩

/-! ## Asset.capacity_factor_in_percent_for
(src/bvp/data/models/assets.py). Python floats are modelled as exact
rationals. -/

/-- Python round(x, 2): round to 2 decimal places. -/
def round2 (q : ℚ) : ℚ := (round (q * 100) : ℤ) / 100

/-- Embedding of Asset.capacity_factor_in_percent_for: 0 when the capacity is
0, otherwise the load/capacity ratio in percent, rounded to 2 decimals and
capped at 100. -/
def capacity_factor_in_percent_for (capacity_in_mw load_in_mw : ℚ) : ℚ :=
  if capacity_in_mw = 0 then 0
  else min (round2 (load_in_mw / capacity_in_mw * 100)) 100

/-- C10: capacity_factor_in_percent_for is total: it returns 0 whenever the
capacity is 0 (no division by zero), for non-zero capacity it returns
min(round((load/capacity)*100, 2), 100), and its result never exceeds 100. -/
theorem capacity_factor_total_and_bounded (capacity load : ℚ) :
    (capacity = 0 → capacity_factor_in_percent_for capacity load = 0) ∧
      (capacity ≠ 0 →
        capacity_factor_in_percent_for capacity load =
          min (round2 (load / capacity * 100)) 100) ∧
      capacity_factor_in_percent_for capacity load ≤ 100 := by
  refine ⟨?_, ?_, ?_⟩
  · intro h
    unfold capacity_factor_in_percent_for
    rw [if_pos h]
  · intro h
    unfold capacity_factor_in_percent_for
    rw [if_neg h]
  · unfold capacity_factor_in_percent_for
    by_cases h : capacity = 0
    · rw [if_pos h]; norm_num
    · rw [if_neg h]; exact min_le_right _ _

/-- C10 witness: a zero-capacity asset reports factor 0, and a concrete
non-zero capacity stays within 100 percent. -/
theorem capacity_factor_total_and_bounded_witness :
    capacity_factor_in_percent_for 0 5 = 0 ∧
      capacity_factor_in_percent_for 2 1 ≤ 100 :=
  ⟨(capacity_factor_total_and_bounded 0 5).1 rfl,
   (capacity_factor_total_and_bounded 2 1).2.2⟩
